import Mathlib

/-!
Verification of the asmblr DAG-engine core (`asmblr/base.py`, `asmblr/expr_node.py`).

The Python source is shallowly embedded: pure helpers become Lean functions,
the mutable node/socket state becomes explicit state passing, and raising code
returns `Except`.  External library calls (gzip, base64, numpy buffer layout)
are modelled by concrete executable functions that capture exactly the contract
the codec relies on (losslessness and byte-count arithmetic), documented at
each definition.
-/

/-! ## Element types of binary payloads

`base.py` serializes torch tensors and numpy arrays as raw bytes plus `shape`
and `dtype` metadata.  The decode path recognizes five torch dtypes
(`dtype_map` in `unprocess_value_from_serialization`) and falls back to
float32 for anything else.  `f16` is included in the model because
`torch.float16` is a dtype string that `process_value_for_serialization`
can emit (via `str(value.dtype)`) yet `dtype_map` does not recognize. -/
inductive DType where
  | f32
  | f64
  | i32
  | i64
  | boolT
  | f16
deriving DecidableEq

/-- Bytes per element, as defined by torch/numpy for each dtype. -/
def itemsize : DType → Nat
  | .f32 => 4
  | .f64 => 8
  | .i32 => 4
  | .i64 => 8
  | .boolT => 1
  | .f16 => 2

/-- `str(tensor.dtype)` for a torch tensor. -/
def torchDtypeStr : DType → String
  | .f32 => "torch.float32"
  | .f64 => "torch.float64"
  | .i32 => "torch.int32"
  | .i64 => "torch.int64"
  | .boolT => "torch.bool"
  | .f16 => "torch.float16"

/-- The `dtype_map` of `unprocess_value_from_serialization`: only five torch
dtype strings are recognized; `torch.float16` is absent. -/
def torchDtypeMap : String → Option DType
  | "torch.float32" => some .f32
  | "torch.float64" => some .f64
  | "torch.int32" => some .i32
  | "torch.int64" => some .i64
  | "torch.bool" => some .boolT
  | _ => none

/-- `str(array.dtype)` for a numpy array. -/
def npDtypeStr : DType → String
  | .f32 => "float32"
  | .f64 => "float64"
  | .i32 => "int32"
  | .i64 => "int64"
  | .boolT => "bool"
  | .f16 => "float16"

/-- Numpy's own dtype-string parser as used by `np.frombuffer(..., dtype=dtype_str)`:
every dtype string numpy understands (all six modelled dtypes) parses; anything
else raises, i.e. decoding fails. -/
def npDtypeOfStr : String → Option DType
  | "float32" => some .f32
  | "float64" => some .f64
  | "int32" => some .i32
  | "int64" => some .i64
  | "bool" => some .boolT
  | "float16" => some .f16
  | _ => none

/-! ## Compression / armoring

`gzip.compress` / `gzip.decompress` are modelled as a lossless framing with the
gzip magic header; the codec never inspects the compressed form, it relies only
on `decompress (compress bs) = bs` and on decompression failing on garbage.
The base64 armoring layer is a bijective transport encoding the codec likewise
never inspects, so the armored payload is carried as the byte list itself. -/
def gzipCompress (bs : List Nat) : List Nat := 31 :: 139 :: bs

/-- Inverse of `gzipCompress`; fails (like `gzip.decompress`) when the magic
header is absent. -/
def gzipDecompress : List Nat → Option (List Nat)
  | 31 :: 139 :: rest => some rest
  | _ => none

/-! ## Values and wire records -/

/-- Python runtime values handled by the codec and the node engine.
`vexpr` stands for the symbolic expressions built by `expr_class(*arguments)`
in `GLNode.inner_eval` (sympy symbols / GLExpr / GLFunction). -/
inductive PyVal where
  | vnone
  | vbool (b : Bool)
  | vstr (s : String)
  | vint (n : Int)
  | vfloat (q : Rat)
  | vtup (vs : List PyVal)
  | vtensor (dt : DType) (shape : List Nat) (bytes : List Nat)
  | varray (dt : DType) (shape : List Nat) (bytes : List Nat)
  | vexpr (name : String) (args : List PyVal)

/-- `value is None` / `value is not None` tests from the source. -/
def PyVal.isNone : PyVal → Bool
  | .vnone => true
  | _ => false

/-- The `data` field of an encoded record: either an ordinary JSON-able value
or the armored compressed byte payload of a binary record. -/
inductive EncData where
  | dval (v : PyVal)
  | dbin (payload : List Nat)

/-- The dictionary produced by `process_value_for_serialization`:
`type` tag, `data`, and (for binary records) `shape`, `dtype`, `device`. -/
structure EncodedRec where
  type : String
  data : EncData
  shape : List Nat := []
  dtype : String := ""
  device : String := ""

/-- `process_value_for_serialization` (base.py:29-81). -/
def processValue : PyVal → EncodedRec
  | .vnone => { type := "none", data := .dval .vnone }
  | .vbool b => { type := "bool", data := .dval (.vbool b) }
  | .vstr s => { type := "string", data := .dval (.vstr s) }
  | .vint n => { type := "tuple", data := .dval (.vtup [.vint n]) }
  | .vfloat q => { type := "tuple", data := .dval (.vtup [.vfloat q]) }
  | .vtup vs => { type := "tuple", data := .dval (.vtup vs) }
  | .vtensor dt shape bytes =>
      { type := "torch_tensor", data := .dbin (gzipCompress bytes),
        shape := shape, dtype := torchDtypeStr dt, device := "cpu" }
  | .varray dt shape bytes =>
      { type := "numpy_array", data := .dbin (gzipCompress bytes),
        shape := shape, dtype := npDtypeStr dt }
  | .vexpr n _ => { type := "other", data := .dval (.vstr n) }

/-- Decode failures: every exception the decode path can raise
(`ValueError` on an unknown tag, numpy `ValueError`/`TypeError` on
buffer/dtype mismatches, gzip/base64 errors on a malformed payload). -/
inductive DecErr where
  | unknownType (tag : String)
  | badPayload
  | bufferMismatch
deriving DecidableEq

/-- `unprocess_value_from_serialization` (base.py:84-160).

For `torch_tensor` the dtype string is resolved through `dtype_map` with a
float32 default; `np.frombuffer(...).reshape(shape)` succeeds iff the byte
count is a multiple of the (effective) itemsize and the element count equals
the product of `shape`.  For `numpy_array` the dtype string is given to numpy
directly, so an unrecognized string raises.  The `"other"` branch returns the
stored value (the `ast.literal_eval` re-parse is not distinguished from its
string fallback; no claim depends on it). -/
def unprocessValue (rec : EncodedRec) : Except DecErr PyVal :=
  if rec.type = "none" then .ok .vnone
  else if rec.type = "bool" then
    match rec.data with
    | .dval v => .ok v
    | .dbin _ => .error .badPayload
  else if rec.type = "string" then
    match rec.data with
    | .dval v => .ok v
    | .dbin _ => .error .badPayload
  else if rec.type = "tuple" then
    match rec.data with
    | .dval (.vtup vs) => .ok (.vtup vs)
    | .dval (.vstr s) => .ok (.vtup (s.toList.map (fun c => .vstr c.toString)))
    | _ => .error .badPayload
  else if rec.type = "torch_tensor" then
    match rec.data with
    | .dbin payload =>
      match gzipDecompress payload with
      | none => .error .badPayload
      | some bytes =>
        let dt := (torchDtypeMap rec.dtype).getD .f32
        if bytes.length % itemsize dt = 0 then
          if bytes.length / itemsize dt = rec.shape.prod then
            .ok (.vtensor dt rec.shape bytes)
          else .error .bufferMismatch
        else .error .bufferMismatch
    | .dval _ => .error .badPayload
  else if rec.type = "numpy_array" then
    match rec.data with
    | .dbin payload =>
      match gzipDecompress payload with
      | none => .error .badPayload
      | some bytes =>
        match npDtypeOfStr rec.dtype with
        | none => .error .badPayload
        | some dt =>
          if bytes.length % itemsize dt = 0 then
            if bytes.length / itemsize dt = rec.shape.prod then
              .ok (.varray dt rec.shape bytes)
            else .error .bufferMismatch
          else .error .bufferMismatch
    | .dval _ => .error .badPayload
  else if rec.type = "other" then
    match rec.data with
    | .dval v => .ok v
    | .dbin _ => .error .badPayload
  else .error (.unknownType rec.type)

/-- The five torch dtypes `dtype_map` recognizes; these are the "supported
element types" of the round-trip claim for tensors. -/
def supportedTorch : DType → Bool
  | .f16 => false
  | _ => true

/-- Semantic image of a value under one encode/decode round trip:
numeric scalars are promoted to 1-element tuples, everything else is fixed. -/
def roundtripImage : PyVal → PyVal
  | .vint n => .vtup [.vint n]
  | .vfloat q => .vtup [.vfloat q]
  | v => v

/-- The value kinds quantified over by the round-trip claim: None, bool,
string, numeric scalar, tuple, and well-formed fixed-shape binary buffers
with a supported element type. -/
def inScope : PyVal → Prop
  | .vnone => True
  | .vbool _ => True
  | .vstr _ => True
  | .vint _ => True
  | .vfloat _ => True
  | .vtup _ => True
  | .vtensor dt shape bytes =>
      supportedTorch dt = true ∧ bytes.length = itemsize dt * shape.prod
  | .varray dt shape bytes => bytes.length = itemsize dt * shape.prod
  | .vexpr _ _ => False

/-! ## Sockets (base.py:571-609)

`InputSocket` / `OutputSocket` are parameterized by the connection datum κ:
the evaluation model identifies nodes by natural-number indices, the
deserialization model by their string ids. -/

/-- `InputSocket`: holds a direct value (Python `None` = `vnone`) and an
ordered connection list. -/
structure InputSocket (κ : Type) where
  value : PyVal := .vnone
  connections : List κ := []

/-- `InputSocket.set_value`: store the value, clear the connections. -/
def InputSocket.setValue (s : InputSocket κ) (v : PyVal) : InputSocket κ :=
  { s with value := v, connections := [] }

/-- `InputSocket.connect`: append the connection, clear the direct value. -/
def InputSocket.connectC (s : InputSocket κ) (c : κ) : InputSocket κ :=
  { s with connections := s.connections ++ [c], value := .vnone }

/-- `OutputSocket`: ordered fan-out connection list. -/
structure OutputSocket (κ : Type) where
  connections : List κ := []

/-- `OutputSocket.connect`. -/
def OutputSocket.connectC (s : OutputSocket κ) (c : κ) : OutputSocket κ :=
  { s with connections := s.connections ++ [c] }

/-- One mutation of an input socket, for stating the value/connection
exclusivity invariant over arbitrary operation sequences. -/
inductive SockOp (κ : Type) where
  | setV (v : PyVal)
  | conn (c : κ)

/-- Apply one socket operation. -/
def applySockOp (s : InputSocket κ) : SockOp κ → InputSocket κ
  | .setV v => s.setValue v
  | .conn c => s.connectC c

/-- Apply a sequence of socket operations in order. -/
def applySockOps (s : InputSocket κ) (ops : List (SockOp κ)) : InputSocket κ :=
  ops.foldl applySockOp s

/-- The exclusivity invariant: no direct value or no connections. -/
def sockExclusive (s : InputSocket κ) : Prop :=
  s.value = .vnone ∨ s.connections = []

/-- A fresh `InputSocket(name, value)` as built in `__init__`. -/
def initSocket (v : PyVal) : InputSocket κ := { value := v, connections := [] }

/-! ## Association-list helpers (Python dicts) -/

/-- `d.get(k, default)`. -/
def lookupD (l : List (String × α)) (k : String) (d : α) : α :=
  match l.find? (fun p => p.1 = k) with
  | some p => p.2
  | none => d

/-- `d.get(k)` / `k in d`. -/
def lookupA (l : List (String × α)) (k : String) : Option α :=
  (l.find? (fun p => p.1 = k)).map Prod.snd

/-- `d[k] = v`: replace in place if the key exists, else append
(insertion-ordered dict update). -/
def assocSet (l : List (String × α)) (k : String) (v : α) : List (String × α) :=
  match l with
  | [] => [(k, v)]
  | p :: rest => if p.1 = k then (k, v) :: rest else p :: assocSet rest k v

/-! ## Evaluation-model state (BaseNode mutable fields) -/

/-- A connection in an evaluation graph: source node index, source output
socket name, destination node index, destination input socket name
(`Connection.input_node/output_socket/output_node/input_socket`). -/
structure Conn where
  src : Nat
  outSock : String
  dst : Nat
  inSock : String

/-- The mutable state of one `BaseNode`: its sockets, the transient resolved
`inputs` table, the cached `outputs` table, the `clean` flag, and an
instrumentation counter of `inner_eval` invocations (the "counting
expression-builder stub" of the spec's testable properties). -/
structure NodeSt where
  inputSockets : List (String × InputSocket Conn) := []
  outputSockets : List (String × OutputSocket Conn) := []
  inputs : List (String × PyVal) := []
  outputs : List (String × PyVal) := []
  clean : Bool := true
  evalCount : Nat := 0

/-- Global evaluation state: node index → node state. -/
def St : Type := Nat → NodeSt

/-- Update one node's state. -/
def updateNode (st : St) (i : Nat) (f : NodeSt → NodeSt) : St :=
  fun j => if j = i then f (st i) else st j

/-- `self.clean = False` (first line of `evaluate`). -/
def setDirty (st : St) (i : Nat) : St :=
  updateNode st i (fun nd => { nd with clean := false })

/-- `self.inputs[name] = value`. -/
def setInput (st : St) (i : Nat) (name : String) (v : PyVal) : St :=
  updateNode st i (fun nd => { nd with inputs := assocSet nd.inputs name v })

/-- `register_output` for each named output of `inner_eval` (dict update),
starting from the node's current outputs table. -/
def foldIns (base : List (String × PyVal)) (outs : List (String × PyVal)) :
    List (String × PyVal) :=
  outs.foldl (fun acc p => assocSet acc p.1 p.2) base

/-- A graph's per-node expression-construction step (`inner_eval`), as a
function from the resolved-inputs table to the registered named outputs. -/
structure Graph where
  inner : Nat → List (String × PyVal) → List (String × PyVal)

/-- `self.inner_eval(...)` followed by its `register_output` calls, plus the
invocation counter. -/
def applyInner (g : Graph) (st : St) (i : Nat) : St :=
  updateNode st i (fun nd =>
    { nd with outputs := foldIns nd.outputs (g.inner i nd.inputs),
              evalCount := nd.evalCount + 1 })

/-- `Connection.get_output` for each connection of a socket, threading state:
evaluate the source node, then read `outputs.get(output_socket, None)`
(base.py:524-527). -/
def resolveConns (ev : St → Nat → St) : St → List Conn → St × List PyVal
  | st, [] => (st, [])
  | st, c :: rest =>
    let st1 := ev st c.src
    let v := lookupD (st1 c.src).outputs c.outSock .vnone
    let pr := resolveConns ev st1 rest
    (pr.1, v :: pr.2)

/-- `resolve_inputs` body for one socket (base.py:222-231 with
`InputSocket.resolve`, base.py:586-594): connected sockets evaluate every
connection and aggregate (single value, else tuple); a `None` result is not
stored; otherwise a non-`None` direct value is stored. -/
def resolveSocket (ev : St → Nat → St) (st : St) (i : Nat) (name : String)
    (sock : InputSocket Conn) : St :=
  match sock.connections with
  | [] =>
    if sock.value.isNone then st
    else setInput st i name sock.value
  | conns =>
    let pr := resolveConns ev st conns
    let value := match pr.2 with
      | [v] => v
      | vs => PyVal.vtup vs
    if value.isNone then pr.1
    else setInput pr.1 i name value

/-- `BaseNode.evaluate` (base.py:233-241), fuel-indexed (the Python code is
plainly recursive; any fuel at least the evaluation depth gives the Python
semantics): mark dirty, return the cache if non-empty, otherwise resolve
every input socket in declared order and run `inner_eval`. -/
def evaluate : Nat → Graph → St → Nat → St
  | 0, _, st, _ => st
  | fuel + 1, g, st, i =>
    let st1 := setDirty st i
    match (st1 i).outputs with
    | [] =>
      let st2 := (st1 i).inputSockets.foldl
        (fun acc p => resolveSocket (fun s k => evaluate fuel g s k) acc i p.1 p.2) st1
      applyInner g st2 i
    | _ => st1

/-- `BaseNode.clean_graph` (base.py:280-287), fuel-indexed: on a not-clean
node, clear outputs and inputs, recurse into the source node of every
input-socket connection, then mark clean; on a clean node do nothing. -/
def cleanGraph : Nat → St → Nat → St
  | 0, st, _ => st
  | fuel + 1, st, i =>
    if (st i).clean then st
    else
      let st1 := updateNode st i (fun nd => { nd with outputs := [], inputs := [] })
      let st2 := (st1 i).inputSockets.foldl
        (fun acc p => p.2.connections.foldl (fun acc2 c => cleanGraph fuel acc2 c.src) acc) st1
      updateNode st2 i (fun nd => { nd with clean := true })

/-! ## GLNode expression construction (expr_node.py:97-118) -/

/-- `isinstance(arg, VALID_INPUT_TYPES)` with
`VALID_INPUT_TYPES = (str, tuple, sp.Tuple, sp.Symbol, th.Tensor, gls.GLExpr,
gls.GLFunction)`: strings, tuples, tensors and symbolic expressions qualify;
None, bools, numbers and numpy arrays do not. -/
def isValidInputType : PyVal → Bool
  | .vstr _ => true
  | .vtup _ => true
  | .vtensor _ _ _ => true
  | .vexpr _ _ => true
  | _ => false

/-- `if not isinstance(arg, VALID_INPUT_TYPES): arg = (arg,)`. -/
def wrapArg (v : PyVal) : PyVal :=
  if isValidInputType v then v else .vtup [v]

/-- `for true_arg in arg` over the fan-in collection of a variadic socket:
iteration over the aggregated tuple.  (Python would raise `TypeError` when a
variadic argument is not iterable; no claim quantifies over that case, so a
non-tuple argument is modelled as a one-element iteration.) -/
def iterElems : PyVal → List PyVal
  | .vtup vs => vs
  | v => [v]

/-- The argument-gathering loop of `GLNode.inner_eval`: walk `arg_keys` in
declared order, `break` at the first key whose resolved input is missing
(`self.inputs.get(key, None)` is `None`), wrap invalid types, and for
variadic nodes flatten the collection. -/
def gatherArguments (variadic : Bool) (inputs : List (String × PyVal)) :
    List String → List PyVal
  | [] => []
  | k :: rest =>
    let arg := lookupD inputs k .vnone
    if arg.isNone then []
    else
      (if variadic then (iterElems arg).map wrapArg else [wrapArg arg])
        ++ gatherArguments variadic inputs rest

/-- `GLNode.inner_eval`: build `expr_class(*arguments)` from the gathered
arguments and register it under the single `"expr"` output. -/
def glInnerEval (variadic : Bool) (exprName : String) (argKeys : List String)
    (inputs : List (String × PyVal)) : List (String × PyVal) :=
  [("expr", .vexpr exprName (gatherArguments variadic inputs argKeys))]

/-! ## Deserialization model (BaseNode.from_dict, base.py:404-460) -/

/-- A recorded edge of the wire format
(`{"source", "sourceOutput", "target", "targetInput"}`); doubles as the
connection datum registered in both endpoint sockets. -/
structure ConnRecd where
  source : String
  sourceOutput : String
  target : String
  targetInput : String

/-- A node record of the wire format (`{"id", "name", "data"}`). -/
structure NodeRecd where
  id : String
  name : String
  data : List (String × EncodedRec) := []

/-- A serialized graph: flat node and edge records. -/
structure GraphData where
  nodes : List NodeRecd
  connections : List ConnRecd

/-- A deserialized node: stored id plus its sockets (string-id connections). -/
structure DNode where
  id : String
  inputSockets : List (String × InputSocket ConnRecd) := []
  outputSockets : List (String × OutputSocket ConnRecd) := []

/-- What a registry entry's `node_class()` constructor builds: named input
sockets with default values, and named output sockets. -/
structure NodeSpec where
  inputs : List (String × PyVal)
  outputs : List String

/-- `NODE_REGISTRY`: type name → node factory. -/
def Registry : Type := String → Option NodeSpec

/-- `node_map`: insertion-ordered id → node table. -/
def NodeMap : Type := List (String × DNode)

/-- Look a node up by id (`node_map[...]`, `None` on a missing key → the
caller's `KeyError`). -/
def lookupNode (m : NodeMap) (k : String) : Option DNode :=
  (m.find? (fun p => p.1 = k)).map Prod.snd

/-- Update the node stored under an id in place. -/
def adjustNode (m : NodeMap) (k : String) (f : DNode → DNode) : NodeMap :=
  m.map (fun p => if p.1 = k then (p.1, f p.2) else p)

/-- Abort conditions of `from_dict` and its helpers. -/
inductive LoadErr where
  | registryMissing (name : String)
  | paramSocketMissing (id k : String)
  | unboundLocal
deriving DecidableEq

/-- Connection-construction failure:
`_validate_connection` raises `ValueError("... does not exist ...")` when a
named socket is absent (the spec's `ReferenceError` taxonomy entry), and the
caller's `node_map[...]` lookups raise `KeyError` on an unknown id. -/
inductive ConnErr where
  | socketMissing (name : String)
  | keyError (id : String)
deriving DecidableEq

/-- `OutputSocket.connect` on the source node's named output socket. -/
def registerOut (c : ConnRecd) (nd : DNode) : DNode :=
  { nd with outputSockets :=
      nd.outputSockets.map (fun p =>
        if p.1 = c.sourceOutput then (p.1, p.2.connectC c) else p) }

/-- `InputSocket.connect` on the destination node's named input socket. -/
def registerIn (c : ConnRecd) (nd : DNode) : DNode :=
  { nd with inputSockets :=
      nd.inputSockets.map (fun p =>
        if p.1 = c.targetInput then (p.1, p.2.connectC c) else p) }

/-- `Connection.__init__` (base.py:497-522) over the node table, returning the
table after the call together with the exception it raised, if any: store the
endpoint fields, run `_validate_connection` (which raises before any socket is
touched), then register the connection in the source node's output socket and
the destination node's input socket.  Returning the table even on the error
path makes the no-partial-registration property a statement, not a typing
artifact. -/
def connectionInit (m : NodeMap) (c : ConnRecd) : NodeMap × Option ConnErr :=
  match lookupNode m c.source, lookupNode m c.target with
  | some a, some b =>
    if (lookupA a.outputSockets c.sourceOutput).isNone then
      (m, some (.socketMissing c.sourceOutput))
    else if (lookupA b.inputSockets c.targetInput).isNone then
      (m, some (.socketMissing c.targetInput))
    else
      (adjustNode (adjustNode m c.source (registerOut c)) c.target (registerIn c), none)
  | _, _ => (m, some (.keyError c.source))

/-- Step 1 of `from_dict` for one node record: look the class up in the
registry (a miss raises `ValueError` and aborts the load), construct the node,
assign the stored id, and restore every recorded direct value.  A data key
naming no input socket raises `KeyError` inside the `try`, and the
backward-compatibility fallback immediately raises the same `KeyError`
un-caught, aborting the load.  When decoding fails but the socket exists, the
fallback stores the raw processed record; the model stores its type tag as an
opaque stand-in (no claim exercises that value). -/
def buildNode (reg : Registry) (r : NodeRecd) : Except LoadErr DNode :=
  match reg r.name with
  | none => .error (.registryMissing r.name)
  | some spec =>
    let base : DNode :=
      { id := r.id,
        inputSockets := spec.inputs.map (fun p => (p.1, initSocket p.2)),
        outputSockets := spec.outputs.map (fun n => (n, {})) }
    r.data.foldlM (fun nd p =>
      if (lookupA nd.inputSockets p.1).isNone then
        .error (.paramSocketMissing r.id p.1)
      else
        let v := match unprocessValue p.2 with
          | .ok v => v
          | .error _ => .vstr p.2.type
        .ok { nd with inputSockets :=
          nd.inputSockets.map (fun q =>
            if q.1 = p.1 then (q.1, q.2.setValue v) else q) }) base

/-- Accumulator of the edge loop: the node table plus whether the local
variables `from_node` / `to_node` of `from_dict` have been bound by some
earlier iteration (the `except` handler's `print` reads both and raises
`UnboundLocalError` if either is still unbound). -/
structure EdgeAcc where
  m : NodeMap
  fromBound : Bool
  toBound : Bool

/-- Step 2 of `from_dict` for one edge record (base.py:437-448):
`from_node = node_map[source]`, `to_node = node_map[target]`,
`Connection(...)`, all inside `try`; any exception reaches a handler that
prints `from_node` and `to_node`.  The handler therefore only skips the edge
when both locals are bound; otherwise the `UnboundLocalError` it raises
aborts the whole load. -/
def processEdge (acc : EdgeAcc) (c : ConnRecd) : Except LoadErr EdgeAcc :=
  match lookupNode acc.m c.source with
  | none =>
    if acc.fromBound && acc.toBound then .ok acc else .error .unboundLocal
  | some _ =>
    match lookupNode acc.m c.target with
    | none =>
      if acc.toBound then .ok { acc with fromBound := true }
      else .error .unboundLocal
    | some _ =>
      let pr := connectionInit acc.m c
      .ok { m := pr.1, fromBound := true, toBound := true }

/-- Total outbound connection count of a node, summed over its output sockets
(the loop over `socket_request_count` in `from_dict`, base.py:450-453). -/
def totalOutConns (nd : DNode) : Nat :=
  (nd.outputSockets.map (fun p => p.2.connections.length)).sum

/-- The computed root set: nodes of the table whose outbound connection count
is zero, in insertion order. -/
def rootsOf (m : NodeMap) : List DNode :=
  (m.map Prod.snd).filter (fun nd => totalOutConns nd == 0)

/-- `from_dict`'s return value: the single root node itself, or the list of
all roots. -/
inductive FromDictResult where
  | single (n : DNode)
  | multiple (ns : List DNode)

/-- Steps 3-4 of `from_dict`: return `parent_nodes[0]` when exactly one root
was found, else the whole list. -/
def pickRoots (m : NodeMap) : FromDictResult :=
  match rootsOf m with
  | [n] => .single n
  | rs => .multiple rs

/-- `BaseNode.from_dict` (base.py:404-460): build every node (first failure
aborts), process every edge (a bad edge is skipped only when the handler can
print), then select the roots. -/
def fromDict (reg : Registry) (gd : GraphData) : Except LoadErr FromDictResult := do
  let m ← gd.nodes.foldlM
    (fun m r => do
      let nd ← buildNode reg r
      pure (assocSet m r.id nd)) ([] : NodeMap)
  let acc ← gd.connections.foldlM processEdge ⟨m, false, false⟩
  pure (pickRoots acc.m)

/-! ## Concrete instances used by the testable-property claims -/

/-- Result projections for stating concrete `from_dict` facts. -/
def isSingleRes : FromDictResult → Bool
  | .single _ => true
  | .multiple _ => false

/-- Ids of the returned root(s). -/
def resRootIds : FromDictResult → List String
  | .single n => [n.id]
  | .multiple ns => ns.map DNode.id

/-- A one-entry registry: node type `"N"` with input socket `"x"` and output
socket `"expr"`. -/
def regN : Registry := fun n =>
  if n = "N" then some { inputs := [("x", .vnone)], outputs := ["expr"] }
  else none

/-- Two disconnected sink nodes. -/
def twoSinkGd : GraphData :=
  { nodes := [⟨"a", "N", []⟩, ⟨"b", "N", []⟩], connections := [] }

/-- Two nodes, one edge `a → b`: the single sink is `b`. -/
def oneSinkGd : GraphData :=
  { nodes := [⟨"a", "N", []⟩, ⟨"b", "N", []⟩],
    connections := [⟨"a", "expr", "b", "x"⟩] }

/-- One node and one edge whose source id matches no node record; the bad
edge is the first edge processed. -/
def badFirstEdgeGd : GraphData :=
  { nodes := [⟨"a", "N", []⟩],
    connections := [⟨"zzz", "expr", "a", "x"⟩] }

/-- Two nodes; a well-formed edge `a → b` followed by an edge with an unknown
source id. -/
def badSecondEdgeGd : GraphData :=
  { nodes := [⟨"a", "N", []⟩, ⟨"b", "N", []⟩],
    connections := [⟨"a", "expr", "b", "x"⟩, ⟨"zzz", "expr", "a", "x"⟩] }

/-- The diamond graph A→B, A→C, {B,C}→D of the spec's testable properties
(node indices A=0, B=1, C=2, D=3), with `GLNode`-style expression
construction at every node. -/
def diamondGraph : Graph :=
  ⟨fun i inputs =>
    match i with
    | 0 => glInnerEval false "A" [] inputs
    | 1 => glInnerEval false "B" ["x"] inputs
    | 2 => glInnerEval false "C" ["x"] inputs
    | _ => glInnerEval false "D" ["a", "b"] inputs⟩

/-- Initial wiring/state of the diamond: all caches empty, all nodes clean. -/
def diamondSt0 : St := fun i =>
  match i with
  | 0 => {}
  | 1 => { inputSockets := [("x", { connections := [⟨0, "expr", 1, "x"⟩] })] }
  | 2 => { inputSockets := [("x", { connections := [⟨0, "expr", 2, "x"⟩] })] }
  | _ => { inputSockets := [("a", { connections := [⟨1, "expr", 3, "a"⟩] }),
                            ("b", { connections := [⟨2, "expr", 3, "b"⟩] })] }

/-- The evaluated diamond extended with a freshly constructed (still clean)
node 4 wired to the already-evaluated sink 3: upstream caches are stale. -/
def staleSt : St := fun i =>
  if i = 4 then { inputSockets := [("x", { connections := [⟨3, "expr", 4, "x"⟩] })] }
  else evaluate 10 diamondGraph diamondSt0 3 i

/-- A two-node table for exercising `Connection.__init__` validation:
`"a"` has output socket `"expr"` only, `"b"` has input socket `"x"` only. -/
def valMap : NodeMap :=
  [("a", { id := "a", outputSockets := [("expr", {})] }),
   ("b", { id := "b", inputSockets := [("x", initSocket .vnone)] })]

/-- The genuine torch dtype-string table (what `str(tensor.dtype)` produces),
including the strings `dtype_map` does not recognize; used to state that a
record's *claimed* dtype is inconsistent with its payload. -/
def torchDtypeOfStrFull : String → Option DType
  | "torch.float32" => some .f32
  | "torch.float64" => some .f64
  | "torch.int32" => some .i32
  | "torch.int64" => some .i64
  | "torch.bool" => some .boolT
  | "torch.float16" => some .f16
  | _ => none

/-- A `torch_tensor` record with the given dtype string, shape and raw
payload bytes. -/
def torchRec (ds : String) (shape bytes : List Nat) : EncodedRec :=
  { type := "torch_tensor", data := .dbin (gzipCompress bytes),
    shape := shape, dtype := ds, device := "cpu" }

/-- A `numpy_array` record with the given dtype string, shape and raw
payload bytes. -/
def numpyRec (ds : String) (shape bytes : List Nat) : EncodedRec :=
  { type := "numpy_array", data := .dbin (gzipCompress bytes),
    shape := shape, dtype := ds }

/-- A handcrafted binary record whose claimed dtype (`torch.float16`,
itemsize 2) is inconsistent with its 4-byte payload under shape `[1]`. -/
def c7Rec : EncodedRec := torchRec "torch.float16" [1] [9, 9, 9, 9]

/-- The type tags `unprocess_value_from_serialization` recognizes. -/
def recognizedTags : List String :=
  ["none", "bool", "string", "tuple", "torch_tensor", "numpy_array", "other"]


/-! ## Helper lemmas -/

theorem updateNode_apply (st : St) (i : Nat) (f : NodeSt → NodeSt) (j : Nat) :
    updateNode st i f j = if j = i then f (st i) else st j := rfl

theorem foldl_pres {α β : Type _} {P : β → Prop} (step : β → α → β)
    (h : ∀ s x, P s → P (step s x)) :
    ∀ (l : List α) (s : β), P s → P (l.foldl step s)
  | [], _, hs => hs
  | x :: rest, s, hs => foldl_pres step h rest (step s x) (h s x hs)

theorem resolveConns_pres {P : St → Prop} (ev : St → Nat → St)
    (hev : ∀ s k, P s → P (ev s k)) :
    ∀ (l : List Conn) (st : St), P st → P (resolveConns ev st l).1
  | [], _, hs => hs
  | c :: rest, st, hs => resolveConns_pres ev hev rest (ev st c.src) (hev st c.src hs)

theorem setInput_clean (st : St) (i : Nat) (n : String) (v : PyVal) (j : Nat) :
    ((setInput st i n v) j).clean = (st j).clean := by
  simp only [setInput, updateNode_apply]
  split
  · next hj => subst hj; rfl
  · rfl

theorem applyInner_clean (g : Graph) (st : St) (i j : Nat) :
    ((applyInner g st i) j).clean = (st j).clean := by
  simp only [applyInner, updateNode_apply]
  split
  · next hj => subst hj; rfl
  · rfl

theorem resolveSocket_pres {P : St → Prop} (ev : St → Nat → St)
    (hev : ∀ s k, P s → P (ev s k))
    (hset : ∀ s i' n v, P s → P (setInput s i' n v))
    (st : St) (i : Nat) (name : String) (sock : InputSocket Conn)
    (h : P st) : P (resolveSocket ev st i name sock) := by
  obtain ⟨val, conns⟩ := sock
  cases conns with
  | nil =>
    simp only [resolveSocket]
    split
    · exact h
    · exact hset st i name val h
  | cons c cs =>
    simp only [resolveSocket]
    split
    · exact resolveConns_pres ev hev (c :: cs) st h
    · exact hset _ i name _ (resolveConns_pres ev hev (c :: cs) st h)

theorem eval_pres_notclean :
    ∀ (fuel : Nat) (g : Graph) (st : St) (i j : Nat),
      (st j).clean = false → ((evaluate fuel g st i) j).clean = false := by
  intro fuel
  induction fuel with
  | zero => intro g st i j h; exact h
  | succ f ih =>
    intro g st i j h
    have h1 : ((setDirty st i) j).clean = false := by
      simp only [setDirty, updateNode_apply]
      split
      · next hj => subst hj; rfl
      · exact h
    simp only [evaluate]
    cases houts : ((setDirty st i) i).outputs with
    | nil =>
      simp only
      rw [applyInner_clean]
      exact foldl_pres (P := fun s => (s j).clean = false)
        (fun (acc : St) (p : String × InputSocket Conn) =>
          resolveSocket (fun s' k => evaluate f g s' k) acc i p.1 p.2)
        (fun s p hp => resolveSocket_pres (P := fun s' => (s' j).clean = false)
          (fun s' k => evaluate f g s' k)
          (fun s' k hp' => ih g s' k j hp')
          (fun s' i' n v hp' => by
            show ((setInput s' i' n v) j).clean = false
            rw [setInput_clean]
            exact hp')
          s i p.1 p.2 hp)
        _ _ h1
    | cons a l => exact h1

theorem eval_sets_notclean (fuel : Nat) (g : Graph) (st : St) (i : Nat) :
    ((evaluate (fuel + 1) g st i) i).clean = false := by
  have h1 : ((setDirty st i) i).clean = false := by
    simp [setDirty, updateNode_apply]
  simp only [evaluate]
  cases houts : ((setDirty st i) i).outputs with
  | nil =>
    simp only
    rw [applyInner_clean]
    exact foldl_pres (P := fun s => (s i).clean = false)
      (fun (acc : St) (p : String × InputSocket Conn) =>
        resolveSocket (fun s' k => evaluate fuel g s' k) acc i p.1 p.2)
      (fun s p hp => resolveSocket_pres (P := fun s' => (s' i).clean = false)
        (fun s' k => evaluate fuel g s' k)
        (fun s' k hp' => eval_pres_notclean fuel g s' k i hp')
        (fun s' i' n v hp' => by
          show ((setInput s' i' n v) i).clean = false
          rw [setInput_clean]
          exact hp')
        s i p.1 p.2 hp)
      _ _ h1
  | cons a l => exact h1

theorem assocSet_ne_nil (l : List (String × α)) (k : String) (v : α) :
    assocSet l k v ≠ [] := by
  cases l with
  | nil => simp [assocSet]
  | cons p rest =>
    simp only [assocSet]
    split <;> simp

theorem foldIns_ne_nil (base : List (String × PyVal)) (outs : List (String × PyVal))
    (h : outs ≠ []) : foldIns base outs ≠ [] := by
  cases outs with
  | nil => exact absurd rfl h
  | cons p rest =>
    simp only [foldIns, List.foldl]
    exact foldl_pres (P := fun l => l ≠ ([] : List (String × PyVal)))
      (fun acc q => assocSet acc q.1 q.2)
      (fun s x _ => assocSet_ne_nil s x.1 x.2) rest _
      (assocSet_ne_nil base p.1 p.2)

theorem eval_outputs_ne (fuel : Nat) (g : Graph) (st : St) (i : Nat)
    (hinner : ∀ inp, g.inner i inp ≠ []) :
    ((evaluate (fuel + 1) g st i) i).outputs ≠ [] := by
  simp only [evaluate]
  cases houts : ((setDirty st i) i).outputs with
  | nil =>
    simp only [applyInner, updateNode_apply, if_pos rfl]
    exact foldIns_ne_nil _ _ (hinner _)
  | cons a l => simp [houts]

theorem NodeSt.setCleanFalse_self (nd : NodeSt) (h : nd.clean = false) :
    { nd with clean := false } = nd := by
  cases nd
  simp_all

theorem setDirty_id (st : St) (i : Nat) (h : (st i).clean = false) :
    setDirty st i = st := by
  funext j
  simp only [setDirty, updateNode_apply]
  split
  · next hj => subst hj; exact NodeSt.setCleanFalse_self _ h
  · rfl

theorem eval_cached_id (fuel : Nat) (g : Graph) (st : St) (i : Nat)
    (hc : (st i).clean = false) (ho : (st i).outputs ≠ []) :
    evaluate (fuel + 1) g st i = st := by
  have hd : setDirty st i = st := setDirty_id st i hc
  simp only [evaluate, hd]

theorem updateNode_cleanTrue_outputs (s : St) (k j : Nat) :
    ((updateNode s k (fun nd => { nd with clean := true })) j).outputs = (s j).outputs := by
  simp only [updateNode_apply]
  split
  · next hj => subst hj; rfl
  · rfl

theorem updateNode_cleanTrue_clean (s : St) (k : Nat) :
    ((updateNode s k (fun nd => { nd with clean := true })) k).clean = true := by
  simp [updateNode_apply]

theorem cleanGraph_pres_outputs_nil :
    ∀ (fuel : Nat) (st : St) (k j : Nat),
      (st j).outputs = [] → ((cleanGraph fuel st k) j).outputs = [] := by
  intro fuel
  induction fuel with
  | zero => intro st k j h; exact h
  | succ f ih =>
    intro st k j h
    by_cases hcl : (st k).clean
    · simp [cleanGraph, hcl, h]
    · have hfold : ∀ (jj : Nat) (s : St), (s jj).outputs = [] →
          ∀ socks : List (String × InputSocket Conn),
            ((socks.foldl (fun acc p => p.2.connections.foldl
              (fun acc2 c => cleanGraph f acc2 c.src) acc) s) jj).outputs = [] := by
        intro jj s hs socks
        exact foldl_pres (P := fun s' => (s' jj).outputs = [])
          (fun (acc : St) (p : String × InputSocket Conn) =>
            p.2.connections.foldl (fun acc2 c => cleanGraph f acc2 c.src) acc)
          (fun s' p hp =>
            foldl_pres (P := fun s'' => (s'' jj).outputs = [])
              (fun (acc2 : St) (c : Conn) => cleanGraph f acc2 c.src)
              (fun s'' c hp' => ih s'' c.src jj hp') p.2.connections s' hp)
          socks s hs
      have h1j : ((updateNode st k (fun nd => { nd with outputs := [], inputs := [] })) j).outputs
          = [] := by
        simp only [updateNode_apply]
        split
        · rfl
        · exact h
      simp only [cleanGraph, hcl, Bool.false_eq_true, if_false]
      rw [updateNode_cleanTrue_outputs]
      exact hfold j _ h1j _

theorem cleanGraph_dirty_clears (fuel : Nat) (st : St) (i : Nat)
    (h : (st i).clean = false) :
    ((cleanGraph (fuel + 1) st i) i).outputs = []
    ∧ ((cleanGraph (fuel + 1) st i) i).clean = true := by
  have hfold : ∀ (jj : Nat) (s : St), (s jj).outputs = [] →
      ∀ socks : List (String × InputSocket Conn),
        ((socks.foldl (fun acc p => p.2.connections.foldl
          (fun acc2 c => cleanGraph fuel acc2 c.src) acc) s) jj).outputs = [] := by
    intro jj s hs socks
    exact foldl_pres (P := fun s' => (s' jj).outputs = [])
      (fun (acc : St) (p : String × InputSocket Conn) =>
        p.2.connections.foldl (fun acc2 c => cleanGraph fuel acc2 c.src) acc)
      (fun s' p hp =>
        foldl_pres (P := fun s'' => (s'' jj).outputs = [])
          (fun (acc2 : St) (c : Conn) => cleanGraph fuel acc2 c.src)
          (fun s'' c hp' => cleanGraph_pres_outputs_nil fuel s'' c.src jj hp')
          p.2.connections s' hp)
      socks s hs
  have h1k : ((updateNode st i (fun nd => { nd with outputs := [], inputs := [] })) i).outputs
      = [] := by
    simp [updateNode_apply]
  simp only [cleanGraph, h, Bool.false_eq_true, if_false]
  constructor
  · rw [updateNode_cleanTrue_outputs]
    exact hfold i _ h1k _
  · rw [updateNode_cleanTrue_clean]

theorem cleanGraph_clean_id (fuel : Nat) (st : St) (i : Nat)
    (h : (st i).clean = true) : cleanGraph (fuel + 1) st i = st := by
  simp [cleanGraph, h]

theorem itemsize_pos (dt : DType) : 0 < itemsize dt := by
  cases dt <;> simp [itemsize]

theorem roundtrip_tensor (dt : DType) (h16 : supportedTorch dt = true)
    (shape bytes : List Nat) (hlen : bytes.length = itemsize dt * shape.prod) :
    unprocessValue (processValue (.vtensor dt shape bytes)) = .ok (.vtensor dt shape bytes) := by
  have hmod : bytes.length % itemsize dt = 0 := by
    rw [hlen]; exact Nat.mul_mod_right _ _
  have hdiv : bytes.length / itemsize dt = shape.prod := by
    rw [hlen]; exact Nat.mul_div_cancel_left _ (itemsize_pos dt)
  cases dt
  case f16 => exact absurd h16 (by simp [supportedTorch])
  all_goals
    simp [itemsize] at hmod hdiv
  all_goals
    simp [processValue, unprocessValue, gzipCompress, gzipDecompress, torchDtypeStr,
      torchDtypeMap, itemsize, hmod, hdiv, Nat.mod_one]

theorem roundtrip_array (dt : DType)
    (shape bytes : List Nat) (hlen : bytes.length = itemsize dt * shape.prod) :
    unprocessValue (processValue (.varray dt shape bytes)) = .ok (.varray dt shape bytes) := by
  have hmod : bytes.length % itemsize dt = 0 := by
    rw [hlen]; exact Nat.mul_mod_right _ _
  have hdiv : bytes.length / itemsize dt = shape.prod := by
    rw [hlen]; exact Nat.mul_div_cancel_left _ (itemsize_pos dt)
  cases dt
  all_goals
    simp [itemsize] at hmod hdiv
  all_goals
    simp [processValue, unprocessValue, gzipCompress, gzipDecompress, npDtypeStr,
      npDtypeOfStr, itemsize, hmod, hdiv, Nat.mod_one]

theorem decode_unknown_tag (rec : EncodedRec) (h : rec.type ∉ recognizedTags) :
    unprocessValue rec = .error (.unknownType rec.type) := by
  simp [recognizedTags] at h
  obtain ⟨h1, h2, h3, h4, h5, h6, h7⟩ := h
  simp [unprocessValue, h1, h2, h3, h4, h5, h6, h7]

theorem decode_torch_mismatch (ds : String) (shape bytes : List Nat)
    (h : itemsize ((torchDtypeMap ds).getD .f32) * shape.prod ≠ bytes.length) :
    unprocessValue (torchRec ds shape bytes) = .error .bufferMismatch := by
  simp only [unprocessValue, torchRec, gzipCompress, gzipDecompress]
  norm_num
  by_cases hm : bytes.length % itemsize ((torchDtypeMap ds).getD .f32) = 0
  · have hne : bytes.length / itemsize ((torchDtypeMap ds).getD .f32) ≠ shape.prod := by
      intro hdv
      apply h
      rw [← hdv, Nat.mul_comm]
      exact Nat.div_mul_cancel (Nat.dvd_of_mod_eq_zero hm)
    simp [hm, hne]
  · simp [hm]

theorem decode_numpy_mismatch (ds : String) (dt : DType) (shape bytes : List Nat)
    (hds : npDtypeOfStr ds = some dt)
    (h : itemsize dt * shape.prod ≠ bytes.length) :
    unprocessValue (numpyRec ds shape bytes) = .error .bufferMismatch := by
  simp only [unprocessValue, numpyRec, gzipCompress, gzipDecompress]
  norm_num
  rw [hds]
  by_cases hm : bytes.length % itemsize dt = 0
  · have hne : bytes.length / itemsize dt ≠ shape.prod := by
      intro hdv
      apply h
      rw [← hdv, Nat.mul_comm]
      exact Nat.div_mul_cancel (Nat.dvd_of_mod_eq_zero hm)
    simp [hm, hne]
  · simp [hm]

theorem decode_numpy_unknown_dtype (ds : String) (shape bytes : List Nat)
    (hds : npDtypeOfStr ds = none) :
    unprocessValue (numpyRec ds shape bytes) = .error .badPayload := by
  simp [unprocessValue, numpyRec, gzipCompress, gzipDecompress, hds]

theorem applySockOp_exclusive {κ : Type} (s : InputSocket κ) (op : SockOp κ) :
    sockExclusive (applySockOp s op) := by
  cases op with
  | setV v => exact Or.inr rfl
  | conn c => exact Or.inl rfl

theorem applySockOps_exclusive {κ : Type} (s : InputSocket κ) (hs : sockExclusive s)
    (ops : List (SockOp κ)) : sockExclusive (applySockOps s ops) :=
  foldl_pres (P := sockExclusive) applySockOp
    (fun s' op _ => applySockOp_exclusive s' op) ops s hs

theorem connectionInit_invalid (m : NodeMap) (c : ConnRecd) (a b : DNode)
    (ha : lookupNode m c.source = some a) (hb : lookupNode m c.target = some b)
    (hmiss : lookupA a.outputSockets c.sourceOutput = none
      ∨ lookupA b.inputSockets c.targetInput = none) :
    (connectionInit m c).1 = m
    ∧ ∃ s, (connectionInit m c).2 = some (ConnErr.socketMissing s) := by
  simp only [connectionInit, ha, hb]
  rcases hmiss with h | h
  · simp [h]
  · by_cases h2 : (lookupA a.outputSockets c.sourceOutput).isNone
    · simp [h2]
    · simp [h2, h]

theorem pickRoots_single (m : NodeMap) (n : DNode) (h : rootsOf m = [n]) :
    pickRoots m = .single n := by
  simp [pickRoots, h]

theorem pickRoots_multiple (m : NodeMap) (h : (rootsOf m).length ≠ 1) :
    pickRoots m = .multiple (rootsOf m) := by
  unfold pickRoots
  cases hr : rootsOf m with
  | nil => rfl
  | cons x l =>
    cases l with
    | nil => rw [hr] at h; simp at h
    | cons y t => rfl

theorem rootsOf_mem (m : NodeMap) (nd : DNode) :
    nd ∈ rootsOf m ↔ nd ∈ m.map Prod.snd ∧ totalOutConns nd = 0 := by
  simp [rootsOf, List.mem_filter]

/-! ## Claim theorems -/

/-- Claim C1: for every value among None, bool, string, tuple, and
well-formed binary buffers with a supported element type, decoding the
encoded record yields a value semantically equal to the original (bit-exact
payload bytes, shape and dtype for binary buffers); numeric scalars decode to
the 1-element tuple containing them. -/
theorem C1_codec_roundtrip (v : PyVal) (h : inScope v) :
    unprocessValue (processValue v) = .ok (roundtripImage v) := by
  cases v with
  | vnone => rfl
  | vbool b => rfl
  | vstr s => rfl
  | vint n => rfl
  | vfloat q => rfl
  | vtup vs => rfl
  | vtensor dt shape bytes => exact roundtrip_tensor dt h.1 shape bytes h.2
  | varray dt shape bytes => exact roundtrip_array dt shape bytes h
  | vexpr n args => exact h.elim

/-- Witness for C1 at a concrete float32 tensor of shape [2]. -/
theorem C1_codec_roundtrip_witness :
    inScope (PyVal.vtensor .f32 [2] [0, 1, 2, 3, 4, 5, 6, 7])
    ∧ unprocessValue (processValue (PyVal.vtensor .f32 [2] [0, 1, 2, 3, 4, 5, 6, 7]))
      = .ok (roundtripImage (PyVal.vtensor .f32 [2] [0, 1, 2, 3, 4, 5, 6, 7])) :=
  ⟨⟨rfl, rfl⟩, C1_codec_roundtrip _ ⟨rfl, rfl⟩⟩

/-- Claim C2: for a node whose expression-construction step registers at
least one named output, a second `evaluate()` with no intervening
invalidation leaves the entire state unchanged (same cached outputs, no new
`inner_eval` invocation); in the diamond A→B, A→C, \x7bB,C\x7d→D, evaluating D
constructs A's expression exactly once, and re-evaluating changes no
invocation count. -/
theorem C2_memoized_evaluation (g : Graph) (f1 f2 : Nat) (st : St) (i : Nat)
    (hinner : ∀ inp, g.inner i inp ≠ []) :
    evaluate (f2 + 1) g (evaluate (f1 + 1) g st i) i = evaluate (f1 + 1) g st i
    ∧ ((evaluate 10 diamondGraph diamondSt0 3) 0).evalCount = 1
    ∧ ((evaluate 10 diamondGraph diamondSt0 3) 3).evalCount = 1
    ∧ ((evaluate 10 diamondGraph (evaluate 10 diamondGraph diamondSt0 3) 3) 0).evalCount = 1
    ∧ ((evaluate 10 diamondGraph (evaluate 10 diamondGraph diamondSt0 3) 3) 3).evalCount = 1 := by
  refine ⟨?_, rfl, rfl, rfl, rfl⟩
  exact eval_cached_id f2 g _ i
    (eval_sets_notclean f1 g st i)
    (eval_outputs_ne f1 g st i hinner)

/-- Witness for C2 at the diamond's sink node. -/
theorem C2_memoized_evaluation_witness :
    (∀ inp, diamondGraph.inner 3 inp ≠ [])
    ∧ evaluate 3 diamondGraph (evaluate 10 diamondGraph diamondSt0 3) 3
      = evaluate 10 diamondGraph diamondSt0 3 :=
  ⟨fun inp => by simp [diamondGraph, glInnerEval],
   (C2_memoized_evaluation diamondGraph 9 2 diamondSt0 3
     (fun inp => by simp [diamondGraph, glInnerEval])).1⟩

/-- Claim C3: an InputSocket built by the constructor never holds both a
non-None direct value and a non-empty connection list, under any sequence of
`set_value` / `connect` operations; `set_value` stores the value and clears
the connections, `connect` appends the connection and clears the value. -/
theorem C3_socket_exclusivity :
    (∀ (v : PyVal) (ops : List (SockOp Conn)),
      sockExclusive (applySockOps (initSocket v) ops))
    ∧ (∀ (s : InputSocket Conn) (v : PyVal),
      (s.setValue v).value = v ∧ (s.setValue v).connections = [])
    ∧ (∀ (s : InputSocket Conn) (c : Conn),
      (s.connectC c).connections = s.connections ++ [c] ∧ (s.connectC c).value = .vnone) :=
  ⟨fun _v ops => applySockOps_exclusive _ (Or.inr rfl) ops,
   fun _ _ => ⟨rfl, rfl⟩,
   fun _ _ => ⟨rfl, rfl⟩⟩

/-- Claim C4: the roots computed by `from_dict` are exactly the nodes whose
outbound connection count summed over all output sockets is zero; exactly one
root is returned as the node itself, any other count as the list of roots;
a two-sink graph deserializes to a list of exactly 2 roots, a single-sink
graph to the root itself. -/
theorem C4_root_recovery :
    (∀ (m : NodeMap) (nd : DNode),
      nd ∈ rootsOf m ↔ nd ∈ m.map Prod.snd ∧ totalOutConns nd = 0)
    ∧ (∀ (m : NodeMap) (n : DNode), rootsOf m = [n] → pickRoots m = .single n)
    ∧ (∀ m : NodeMap, (rootsOf m).length ≠ 1 → pickRoots m = .multiple (rootsOf m))
    ∧ (fromDict regN twoSinkGd).map resRootIds = .ok ["a", "b"]
    ∧ (fromDict regN twoSinkGd).map isSingleRes = .ok false
    ∧ (fromDict regN oneSinkGd).map resRootIds = .ok ["b"]
    ∧ (fromDict regN oneSinkGd).map isSingleRes = .ok true :=
  ⟨rootsOf_mem, pickRoots_single, pickRoots_multiple, rfl, rfl, rfl, rfl⟩

/-- Witness for C4's conditional conjuncts at the empty node table. -/
theorem C4_root_recovery_witness :
    pickRoots ([] : NodeMap) = .multiple (rootsOf ([] : NodeMap)) :=
  C4_root_recovery.2.2.1 [] (by decide)

/-- Claim C5: constructing a Connection naming an output socket absent on
the source node or an input socket absent on the destination node raises the
socket-validation error (`ValueError`, the spec's ReferenceError) and leaves
the node table — hence both endpoints' socket connection lists — unchanged:
validation runs before any registration. -/
theorem C5_connection_validation_atomic (m : NodeMap) (c : ConnRecd) (a b : DNode)
    (ha : lookupNode m c.source = some a) (hb : lookupNode m c.target = some b)
    (hmiss : lookupA a.outputSockets c.sourceOutput = none
      ∨ lookupA b.inputSockets c.targetInput = none) :
    (connectionInit m c).1 = m
    ∧ ∃ s, (connectionInit m c).2 = some (ConnErr.socketMissing s) :=
  connectionInit_invalid m c a b ha hb hmiss

/-- Witness for C5: connecting from a non-existent output socket `"nope"`. -/
theorem C5_connection_validation_atomic_witness :
    (connectionInit valMap ⟨"a", "nope", "b", "x"⟩).1 = valMap
    ∧ ∃ s, (connectionInit valMap ⟨"a", "nope", "b", "x"⟩).2
        = some (ConnErr.socketMissing s) :=
  C5_connection_validation_atomic valMap ⟨"a", "nope", "b", "x"⟩ _ _ rfl rfl (Or.inl rfl)

/-- Claim C6 (code bug): an edge whose source id matches no node record is
only skipped when the handler's `print(from_node, to_node)` can evaluate;
when the bad edge is the first edge processed, `from_node`/`to_node` are
unbound and the handler raises `UnboundLocalError`, aborting the whole load —
contrary to the documented skip-and-report behavior.  A bad edge arriving
after a well-formed edge is skipped and the load completes. -/
theorem C6_bad_edge_unbound_local_aborts :
    fromDict regN badFirstEdgeGd = .error .unboundLocal
    ∧ (fromDict regN badSecondEdgeGd).map resRootIds = .ok ["b"]
    ∧ (fromDict regN badSecondEdgeGd).map isSingleRes = .ok true :=
  ⟨rfl, rfl, rfl⟩

/-- Counterexample to claim C7 as stated: `c7Rec` is a binary record whose
claimed dtype (`torch.float16`) is inconsistent with the decompressed payload
length (itemsize 2 · shape product 1 ≠ 4 bytes), yet decode returns a value
(a float32 tensor) instead of failing. -/
theorem C7_counterexample :
    c7Rec.type = "torch_tensor"
    ∧ torchDtypeOfStrFull c7Rec.dtype = some .f16
    ∧ itemsize .f16 * c7Rec.shape.prod ≠ ([9, 9, 9, 9] : List Nat).length
    ∧ c7Rec.data = .dbin (gzipCompress [9, 9, 9, 9])
    ∧ unprocessValue c7Rec = .ok (.vtensor .f32 [1] [9, 9, 9, 9]) :=
  ⟨rfl, rfl, by decide, rfl, rfl⟩

/-- Claim C7 as amended: decode fails with a DecodeError on an unrecognized
type tag; a `numpy_array` record fails whenever its dtype string is
unrecognized or its shape/dtype metadata is inconsistent with the
decompressed payload length; a `torch_tensor` record first resolves its dtype
string through a five-entry table defaulting to float32, and fails exactly
when the payload length is inconsistent with the shape under that effective
dtype (so an unrecognized claimed dtype can decode as float32, per the
counterexample). -/
theorem C7_decode_failure_amended :
    (∀ rec : EncodedRec, rec.type ∉ recognizedTags →
      unprocessValue rec = .error (.unknownType rec.type))
    ∧ (∀ (ds : String) (dt : DType) (shape bytes : List Nat),
        npDtypeOfStr ds = some dt → itemsize dt * shape.prod ≠ bytes.length →
        unprocessValue (numpyRec ds shape bytes) = .error .bufferMismatch)
    ∧ (∀ (ds : String) (shape bytes : List Nat), npDtypeOfStr ds = none →
        unprocessValue (numpyRec ds shape bytes) = .error .badPayload)
    ∧ (∀ (ds : String) (shape bytes : List Nat),
        itemsize ((torchDtypeMap ds).getD .f32) * shape.prod ≠ bytes.length →
        unprocessValue (torchRec ds shape bytes) = .error .bufferMismatch) :=
  ⟨decode_unknown_tag, decode_numpy_mismatch, decode_numpy_unknown_dtype,
   decode_torch_mismatch⟩

/-- Witness for C7's amended claim on concrete malformed records. -/
theorem C7_decode_failure_amended_witness :
    unprocessValue { type := "mystery", data := .dval .vnone } = .error (.unknownType "mystery")
    ∧ unprocessValue (numpyRec "float32" [1] [1, 2, 3]) = .error .bufferMismatch
    ∧ unprocessValue (numpyRec "weird" [1] [1, 2, 3]) = .error .badPayload
    ∧ unprocessValue (torchRec "torch.float16" [2] [1, 2, 3, 4]) = .error .bufferMismatch :=
  ⟨C7_decode_failure_amended.1 _ (by decide),
   C7_decode_failure_amended.2.1 "float32" .f32 [1] [1, 2, 3] rfl (by decide),
   C7_decode_failure_amended.2.2.1 "weird" [1] [1, 2, 3] rfl,
   C7_decode_failure_amended.2.2.2 "torch.float16" [2] [1, 2, 3, 4] (by decide)⟩

/-- Claim C8: `clean_graph()` on an evaluated (not-yet-clean) node clears its
cached outputs and marks it clean; an already-clean node is not revisited
(the call is a no-op); in the diamond, after evaluating D then cleaning, all
of A, B, C, D report an empty cache and are clean, and re-evaluating D
constructs A's expression exactly once more (invocation count 2). -/
theorem C8_clean_graph_invalidation (fuel : Nat) (st : St) (i : Nat)
    (h : (st i).clean = false) :
    (((cleanGraph (fuel + 1) st i) i).outputs = []
      ∧ ((cleanGraph (fuel + 1) st i) i).clean = true)
    ∧ (∀ (f2 : Nat) (st2 : St) (k : Nat), (st2 k).clean = true →
        cleanGraph (f2 + 1) st2 k = st2)
    ∧ ((cleanGraph 10 (evaluate 10 diamondGraph diamondSt0 3) 3) 0).outputs = []
    ∧ ((cleanGraph 10 (evaluate 10 diamondGraph diamondSt0 3) 3) 1).outputs = []
    ∧ ((cleanGraph 10 (evaluate 10 diamondGraph diamondSt0 3) 3) 2).outputs = []
    ∧ ((cleanGraph 10 (evaluate 10 diamondGraph diamondSt0 3) 3) 3).outputs = []
    ∧ ((cleanGraph 10 (evaluate 10 diamondGraph diamondSt0 3) 3) 0).clean = true
    ∧ ((cleanGraph 10 (evaluate 10 diamondGraph diamondSt0 3) 3) 1).clean = true
    ∧ ((cleanGraph 10 (evaluate 10 diamondGraph diamondSt0 3) 3) 2).clean = true
    ∧ ((cleanGraph 10 (evaluate 10 diamondGraph diamondSt0 3) 3) 3).clean = true
    ∧ ((evaluate 10 diamondGraph
        (cleanGraph 10 (evaluate 10 diamondGraph diamondSt0 3) 3) 3) 0).evalCount = 2 :=
  ⟨cleanGraph_dirty_clears fuel st i h,
   fun f2 st2 k hk => cleanGraph_clean_id f2 st2 k hk,
   rfl, rfl, rfl, rfl, rfl, rfl, rfl, rfl, rfl⟩

/-- Witness for C8 at the evaluated diamond's sink. -/
theorem C8_clean_graph_invalidation_witness :
    ((evaluate 10 diamondGraph diamondSt0 3) 3).clean = false
    ∧ (((cleanGraph 10 (evaluate 10 diamondGraph diamondSt0 3) 3) 3).outputs = []
       ∧ ((cleanGraph 10 (evaluate 10 diamondGraph diamondSt0 3) 3) 3).clean = true) :=
  ⟨rfl, (C8_clean_graph_invalidation 9 _ 3 rfl).1⟩

/-- Claim C9: `GLNode.inner_eval` gathers resolved arguments in declared
`arg_keys` order and stops at the first missing (None) entry, so the
expression is built from exactly the per-element processing of the contiguous
None-free prefix of the resolved collection — everything at and after the
first missing position is discarded. -/
theorem C9_variadic_prefix_policy (variadic : Bool) (exprName : String)
    (inputs : List (String × PyVal)) (argKeys : List String) :
    gatherArguments variadic inputs argKeys
      = ((argKeys.map (fun k => lookupD inputs k .vnone)).takeWhile
          (fun v => !v.isNone)).flatMap
          (fun a => if variadic then (iterElems a).map wrapArg else [wrapArg a])
    ∧ glInnerEval variadic exprName argKeys inputs
      = [("expr", .vexpr exprName (gatherArguments variadic inputs argKeys))] := by
  refine ⟨?_, rfl⟩
  induction argKeys with
  | nil => rfl
  | cons k rest ih =>
    simp only [gatherArguments, List.map_cons, List.takeWhile_cons]
    by_cases h : (lookupD inputs k PyVal.vnone).isNone
    · simp [h]
    · simp [h, ih]

/-- Claim C10: every `evaluate()` call, including a pure cache hit, sets the
node's clean flag to False; consequently `clean_graph()` on a node whose
clean flag is True returns immediately with the whole state — including stale
upstream caches — unchanged. -/
theorem C10_evaluate_dirties_clean_noop (fuel : Nat) (g : Graph) (st : St) (i : Nat) :
    ((evaluate (fuel + 1) g st i) i).clean = false
    ∧ ((st i).clean = true → cleanGraph (fuel + 1) st i = st) :=
  ⟨eval_sets_notclean fuel g st i, fun h => cleanGraph_clean_id fuel st i h⟩

/-- Witness for C10: a fresh clean node wired below the evaluated diamond;
cleaning it is a no-op and the stale cache of node 0 is untouched. -/
theorem C10_evaluate_dirties_clean_noop_witness :
    ((evaluate 1 diamondGraph staleSt 4) 4).clean = false
    ∧ cleanGraph 1 staleSt 4 = staleSt
    ∧ (staleSt 0).outputs = [("expr", PyVal.vexpr "A" [])] :=
  ⟨(C10_evaluate_dirties_clean_noop 0 diamondGraph staleSt 4).1,
   (C10_evaluate_dirties_clean_noop 0 diamondGraph staleSt 4).2 rfl,
   rfl⟩
